import Mathlib

/-!
Verification of the MailSafePro SDK resilient request pipeline.

Shallow embedding of the SDK's core components, translated from the
TypeScript sources:
  * `src/utils/retry.ts`        — exponential-backoff retry engine (`withRetry`)
  * `src/utils/rateLimiter.ts`  — client-side rate limiter / concurrency gate
  * `src/interceptors/index.ts` — transport failure classification and
                                  header sanitization
  * `src/auth/authClient.ts`    — session lifecycle (refresh scheduling,
                                  single-flight refresh)
  * `src/validation/validationClient.ts` — batch job poller
  * `src/errors.ts`             — typed error taxonomy

JavaScript conventions used throughout the embedding:
  * absent / `undefined` numeric values are modelled as `0` (which is also
    falsy in JS, matching every `x || y` and `if (x)` use in the sources);
  * absent / `undefined` strings are modelled as `""` (falsy in JS);
  * `parseInt` is modelled by `parseIntOpt` (`none` standing for `NaN`);
  * time is modelled as `ℚ` (milliseconds) where fractional values occur
    (`minInterval = 1000 / maxRequestsPerSecond`), `ℕ` otherwise.
-/

/-- JS `a || b` on strings: `""` is falsy. -/
def jsOrS (a b : String) : String := if a ≠ "" then a else b

/-- JS `a || b` on numbers with `0`/`undefined` both modelled as `0` (falsy). -/
def jsOrN (a b : Nat) : Nat := if a ≠ 0 then a else b

/-- JS `parseInt` on the strings the SDK feeds it (decimal numerals such
as header values): the parsed number, or `none` for `NaN`. -/
def parseIntOpt (s : String) : Option Nat :=
  if s.data ≠ [] ∧ s.data.all Char.isDigit then
    some (s.data.foldl (fun n c => n * 10 + (c.toNat - 48)) 0)
  else none

namespace Retry

/--
The shape of a failure as inspected by `withRetry` (src/utils/retry.ts):
it reads `error?.response?.status`, `error?.statusCode`, `error?.code` and
`error?.response?.headers?.['retry-after']`.  Typed SDK errors
(src/errors.ts) have a `statusCode` field, a `code` field and possibly a
`retryAfter` field, but no `response` property; raw axios errors have a
`response` with `status` and `headers`.
-/
structure JsError where
  /-- whether `error.response` exists -/
  hasResponse : Bool := false
  /-- `error.response.status` (`0` = absent) -/
  responseStatus : Nat := 0
  /-- `error.response.headers['retry-after']` (`""` = absent) -/
  retryAfterHeader : String := ""
  /-- `error.statusCode` on typed SDK errors (`0` = absent/undefined) -/
  statusCode : Nat := 0
  /-- `error.code` (`""` = absent) -/
  code : String := ""
  /-- `error.message` -/
  message : String := ""
  /-- `error.name` (constructor name for typed SDK errors) -/
  name : String := ""
  /-- `RateLimitError.retryAfter` field (never read by `withRetry`) -/
  retryAfter : Option Nat := none
deriving DecidableEq

/-- `error?.response?.status || error?.statusCode` (retry.ts line 288). -/
def JsError.effStatus (e : JsError) : Nat :=
  if e.hasResponse && e.responseStatus ≠ 0 then e.responseStatus else e.statusCode

/-- `error?.response?.headers?.['retry-after']` (retry.ts line 329):
`undefined` when there is no response object. -/
def JsError.responseRetryAfterHeader (e : JsError) : String :=
  if e.hasResponse then e.retryAfterHeader else ""

/-- `RetryConfig` from src/utils/retry.ts (logger and callback omitted:
they do not influence control flow, see `withRetryRun`). -/
structure RetryConfig where
  maxRetries : Nat
  initialDelayMs : ℚ
  maxDelayMs : ℚ
  backoffMultiplier : ℚ
  retryableStatusCodes : List Nat
  retryableErrors : List String

/-- `DEFAULT_RETRY_CONFIG` from src/utils/retry.ts. -/
def DEFAULT_RETRY_CONFIG : RetryConfig :=
  { maxRetries := 3
    initialDelayMs := 500
    maxDelayMs := 30000
    backoffMultiplier := 2
    retryableStatusCodes := [408, 429, 500, 502, 503, 504]
    retryableErrors := ["ECONNRESET", "ETIMEDOUT", "ECONNREFUSED", "ENETUNREACH"] }

/-- retry.ts lines 299-301: `isRetryableStatus || isRetryableError`, where
`statusCode && retryableStatusCodes.includes(statusCode)` and
`errorCode && retryableErrors?.includes(errorCode)`. -/
def isRetryable (cfg : RetryConfig) (e : JsError) : Bool :=
  (decide (e.effStatus ≠ 0) && cfg.retryableStatusCodes.contains e.effStatus)
    || (decide (e.code ≠ "") && cfg.retryableErrors.contains e.code)

/--
The delay computed before the next attempt (retry.ts lines 319-336):
exponential backoff capped at `maxDelayMs`, multiplied by a jitter factor
in `[0.5, 1.0]` (`0.5 + Math.random() * 0.5`, passed in as `jitter`); if
`error?.response?.headers?.['retry-after']` is present and parses, the
delay becomes `parseInt(header) * 1000` capped at `maxDelayMs` instead.
-/
def computeDelay (cfg : RetryConfig) (attempt : Nat) (jitter : ℚ) (e : JsError) : ℚ :=
  let base := min (cfg.initialDelayMs * cfg.backoffMultiplier ^ attempt) cfg.maxDelayMs
  let jittered := base * jitter
  let h := e.responseRetryAfterHeader
  if h ≠ "" then
    match parseIntOpt h with
    | some n => min ((n : ℚ) * 1000) cfg.maxDelayMs
    | none => jittered
  else jittered

/-- Result of a `withRetry` run: the outcome, the total number of
invocations of `fn`, and the list of delays slept between attempts. -/
structure RunResult (α : Type) where
  result : Except JsError α
  attempts : Nat
  delays : List ℚ

/--
The `for` loop of `withRetry` (retry.ts lines 282-356), as a function of
the outcome of each invocation (`fn i` = outcome of the `i`-th call,
0-based) and of the jitter drawn at each attempt.  `remaining` is
`maxRetries - attempt`; at `remaining = 0` a retryable failure hits the
`attempt === maxRetries` break and the last error is thrown.  The
`onRetry` callback is invoked inside a `try`/`catch` whose handler only
logs, so it cannot influence the run and is omitted.
-/
def withRetryGo (cfg : RetryConfig) (jitters : Nat → ℚ) (fn : Nat → Except JsError α) :
    Nat → Nat → RunResult α
  | attempt, 0 =>
    match fn attempt with
    | .ok v => ⟨.ok v, attempt + 1, []⟩
    | .error e => ⟨.error e, attempt + 1, []⟩
  | attempt, remaining + 1 =>
    match fn attempt with
    | .ok v => ⟨.ok v, attempt + 1, []⟩
    | .error e =>
      if isRetryable cfg e then
        let d := computeDelay cfg attempt (jitters attempt) e
        let rest := withRetryGo cfg jitters fn (attempt + 1) remaining
        ⟨rest.result, rest.attempts, d :: rest.delays⟩
      else ⟨.error e, attempt + 1, []⟩

/--
`withRetry(fn, config)` from src/utils/retry.ts.  A non-retryable failure
is rethrown immediately; a retryable failure on the last attempt
(`attempt === maxRetries`) breaks out of the loop and the last error is
thrown; otherwise the computed delay is slept and the next attempt made.

Note: at `remaining = 0`, `withRetryGo` returns the error whether or not
it is retryable; this coincides with the code, where the retryable check
and the last-attempt break both end in the same throw of `lastError = e`.
-/
def withRetryRun (cfg : RetryConfig) (jitters : Nat → ℚ) (fn : Nat → Except JsError α) :
    RunResult α :=
  withRetryGo cfg jitters fn 0 cfg.maxRetries

end Retry

/-- JS `s.includes(pat)`: substring containment. -/
def strContains (s pat : String) : Bool := decide (pat.toList <:+: s.toList)

/-- ASCII lowercase of one character. -/
def lowerChar (c : Char) : Char :=
  if c.toNat ≥ 65 ∧ c.toNat ≤ 90 then Char.ofNat (c.toNat + 32) else c

/-- JS `s.toLowerCase()` (header keys are ASCII, so the ASCII mapping is
exact on every input the interceptor sees). -/
def lowerStr (s : String) : String := ⟨s.data.map lowerChar⟩

namespace Icpt

/--
A typed SDK error as constructed in src/errors.ts: `name` is the
constructor name, `code` the machine code, `statusCode` as set by each
constructor, plus the subclass fields (`retryAfter`/`limit`/`remaining`/
`reset` on `RateLimitError`, `isTimeout` on `NetworkError`) and the parts
of `details` the claims inspect (`url`, `retryable`).
-/
structure TypedError where
  name : String
  message : String
  code : String
  statusCode : Option Nat := none
  retryAfter : Option Nat := none
  limit : Option Nat := none
  remaining : Option Nat := none
  /-- `RateLimitError.reset` (epoch seconds; the constructor also derives
  `new Date(reset * 1000)` from it) -/
  reset : Option Nat := none
  isTimeout : Bool := false
  /-- `details.retryable` (set only by the 5xx branch) -/
  detailsRetryable : Bool := false
  /-- `details.url` (the request URL attached by the interceptor) -/
  detailsUrl : String := ""
deriving DecidableEq

/-- `new AuthenticationError(message, details)` (errors.ts lines 255-259):
code `AUTHENTICATION_ERROR`, statusCode hardwired to `401`. -/
def mkAuthenticationError (message url : String) : TypedError :=
  { name := "AuthenticationError", message, code := "AUTHENTICATION_ERROR"
    statusCode := some 401, detailsUrl := url }

/-- `new ValidationError(message, details)` (errors.ts lines 289-293):
code `VALIDATION_ERROR`, statusCode hardwired to `400`. -/
def mkValidationError (message url : String) : TypedError :=
  { name := "ValidationError", message, code := "VALIDATION_ERROR"
    statusCode := some 400, detailsUrl := url }

/-- `new RateLimitError(message, retryAfter, details)` (errors.ts lines
261-287): code `RATE_LIMIT_EXCEEDED`, statusCode `429`, plus
`limit`/`remaining`/`reset` copied from `details`. -/
def mkRateLimitError (message : String) (retryAfter limit remaining reset : Option Nat)
    (url : String) : TypedError :=
  { name := "RateLimitError", message, code := "RATE_LIMIT_EXCEEDED"
    statusCode := some 429, retryAfter, limit, remaining, reset, detailsUrl := url }

/-- `new QuotaExceededError(message, details)` (errors.ts lines 310-330):
code `QUOTA_EXCEEDED`, statusCode `402`. -/
def mkQuotaExceededError (message url : String) : TypedError :=
  { name := "QuotaExceededError", message, code := "QUOTA_EXCEEDED"
    statusCode := some 402, detailsUrl := url }

/-- `new APIError(message, statusCode, details)` (errors.ts lines 304-308):
code `API_ERROR`, statusCode passed through. -/
def mkAPIError (message : String) (statusCode : Nat) (retryable : Bool) (url : String) :
    TypedError :=
  { name := "APIError", message, code := "API_ERROR", statusCode := some statusCode
    detailsRetryable := retryable, detailsUrl := url }

/-- `new NetworkError(message, details)` (errors.ts lines 295-302):
code `NETWORK_ERROR`, no statusCode, `isTimeout = false`. -/
def mkNetworkError (message : String) : TypedError :=
  { name := "NetworkError", message, code := "NETWORK_ERROR" }

/-- `new TimeoutError(message, details)` (errors.ts lines 338-342):
a `NetworkError` with `isTimeout = true` and name `TimeoutError`. -/
def mkTimeoutError (message : String) : TypedError :=
  { name := "TimeoutError", message, code := "NETWORK_ERROR", isTimeout := true }

/-- Header lookup `headers[k]` on an axios header map (axios lower-cases
response header names); `""` models an absent header. -/
def hdr (headers : List (String × String)) (k : String) : String :=
  (((headers.find? (fun kv => kv.1 == k)).map (fun kv => kv.2))).getD ""

/-- The `error.response` shape inspected by the response interceptor:
`status`, `data.message` / `data.detail` (`""` = absent) and the headers. -/
structure AxiosResp where
  status : Nat
  dataMessage : String := ""
  dataDetail : String := ""
  headers : List (String × String) := []
deriving DecidableEq

/-- The axios failure shape delivered to the response interceptor's error
handler: an optional response plus `error.code`, `error.message` and the
request URL `error.config?.url`. -/
structure AxiosErr where
  response : Option AxiosResp := none
  code : String := ""
  message : String := ""
  url : String := ""
deriving DecidableEq

/-- Parsed rate-limit headers. -/
structure RateLimitInfo where
  limit : Option Nat := none
  remaining : Option Nat := none
  reset : Option Nat := none
deriving DecidableEq

/-- `parseRateLimitHeaders` (interceptors/index.ts lines 263-296):
`x-ratelimit-*` headers with non-prefixed fallback, `parseInt`ed
(`none` models both an absent header and a `NaN` parse). -/
def parseRateLimitHeaders (headers : List (String × String)) : RateLimitInfo :=
  let limitHeader := jsOrS (hdr headers "x-ratelimit-limit") (hdr headers "ratelimit-limit")
  let remainingHeader :=
    jsOrS (hdr headers "x-ratelimit-remaining") (hdr headers "ratelimit-remaining")
  let resetHeader := jsOrS (hdr headers "x-ratelimit-reset") (hdr headers "ratelimit-reset")
  { limit := if limitHeader ≠ "" then parseIntOpt limitHeader else none
    remaining := if remainingHeader ≠ "" then parseIntOpt remainingHeader else none
    reset := if resetHeader ≠ "" then parseIntOpt resetHeader else none }

/-- `errorData?.message || errorData?.detail || dflt` (the message picked
for every mapped error in the response interceptor). -/
def errMsg (r : AxiosResp) (dflt : String) : String :=
  jsOrS r.dataMessage (jsOrS r.dataDetail dflt)

/--
The error branch of the response interceptor (interceptors/index.ts lines
105-234): classify a transport failure into exactly one typed error.
With no response: `TimeoutError` iff `error.code === 'ECONNABORTED' ||
error.message.includes('timeout')`, else `NetworkError`.  With a
response: the `switch (status)` mapping.
-/
def classifyError (e : AxiosErr) : TypedError :=
  match e.response with
  | none =>
    if e.code == "ECONNABORTED" || strContains e.message "timeout" then
      mkTimeoutError "Request timeout"
    else mkNetworkError "Network request failed"
  | some r =>
    let info := parseRateLimitHeaders r.headers
    if r.status = 401 then mkAuthenticationError (errMsg r "Authentication failed") e.url
    else if r.status = 403 then mkAuthenticationError (errMsg r "Access forbidden") e.url
    else if r.status = 429 then
      let retryAfter :=
        if hdr r.headers "retry-after" ≠ "" then parseIntOpt (hdr r.headers "retry-after") else none
      mkRateLimitError (errMsg r "Rate limit exceeded") retryAfter
        info.limit info.remaining info.reset e.url
    else if r.status = 400 then mkValidationError (errMsg r "Validation failed") e.url
    else if r.status = 402 then mkQuotaExceededError (errMsg r "Quota exceeded") e.url
    else if r.status = 404 then mkAPIError (errMsg r "Resource not found") r.status false e.url
    else if r.status = 422 then mkValidationError (errMsg r "Unprocessable entity") e.url
    else if r.status = 500 ∨ r.status = 502 ∨ r.status = 503 ∨ r.status = 504 then
      mkAPIError (errMsg r ("Server error: " ++ toString r.status)) r.status true e.url
    else mkAPIError (errMsg r ("API error: " ++ toString r.status)) r.status false e.url

/-- The default message picked per status branch when the server supplies
neither `message` nor `detail` (the string literals of the `switch` in
interceptors/index.ts lines 151-231). -/
def defaultMsg (status : Nat) : String :=
  if status = 401 then "Authentication failed"
  else if status = 403 then "Access forbidden"
  else if status = 429 then "Rate limit exceeded"
  else if status = 400 then "Validation failed"
  else if status = 402 then "Quota exceeded"
  else if status = 404 then "Resource not found"
  else if status = 422 then "Unprocessable entity"
  else if status = 500 ∨ status = 502 ∨ status = 503 ∨ status = 504 then
    "Server error: " ++ toString status
  else "API error: " ++ toString status

/--
How a typed SDK error looks to `withRetry` (retry.ts reads
`error?.response?.status`, `error?.statusCode`, `error?.code`,
`error?.response?.headers?.['retry-after']`): typed errors carry
`statusCode` and `code` but have **no** `response` property, so the
`retry-after` header lookup yields `undefined` on them.
-/
def TypedError.toJsError (t : TypedError) : Retry.JsError :=
  { hasResponse := false
    responseStatus := 0
    retryAfterHeader := ""
    statusCode := t.statusCode.getD 0
    code := t.code
    message := t.message
    name := t.name
    retryAfter := t.retryAfter }

/-- The sensitive-key set of `sanitizeHeadersForLogging`
(interceptors/index.ts line 248). -/
def sensitiveKeys : List String :=
  ["authorization", "x-api-key", "api-key", "apikey", "cookie", "set-cookie"]

/-- `sanitizeHeadersForLogging` (interceptors/index.ts lines 244-261):
keys matching the sensitive set case-insensitively are replaced with
`***REDACTED***`; other values pass through (`String(value)` on a string
is the string itself). -/
def sanitizeHeadersForLogging (headers : List (String × String)) : List (String × String) :=
  headers.map fun kv =>
    if sensitiveKeys.contains (lowerStr kv.1) then (kv.1, "***REDACTED***") else (kv.1, kv.2)

/-- The headers actually logged by the request interceptor
(interceptors/index.ts lines 54-62): sanitized only when the
`sanitizeHeaders` option is `true` (its default). -/
def loggedRequestHeaders (sanitizeHeaders : Bool) (headers : List (String × String)) :
    List (String × String) :=
  if sanitizeHeaders then sanitizeHeadersForLogging headers else headers

end Icpt

namespace RateLimiter

/-- `RateLimiterConfig` (src/utils/rateLimiter.ts): `maxConcurrentOpt = 0`
models both an absent `maxConcurrent` and an explicit `0` (both are falsy
in `config.maxConcurrent || 10`). -/
structure Config where
  maxRequestsPerSecond : ℚ
  maxConcurrentOpt : Nat
deriving DecidableEq

/-- `this.minInterval = 1000 / config.maxRequestsPerSecond`
(rateLimiter.ts line 30). -/
def Config.minInterval (c : Config) : ℚ := 1000 / c.maxRequestsPerSecond

/-- `this.maxConcurrent = config.maxConcurrent || 10`
(rateLimiter.ts line 31). -/
def Config.maxConcurrent (c : Config) : Nat := jsOrN c.maxConcurrentOpt 10

/--
The limiter's observable state: the queue of not-yet-admitted tasks (by
id), the in-flight count `pending`, `lastRequestTime`, the current clock
value `now` (`Date.now()`), and the ghost history of admission timestamps
(most recent first), recorded to state the spacing invariant.
-/
structure State where
  queue : List Nat
  pending : Nat
  lastRequestTime : ℚ
  now : ℚ
  admissions : List ℚ
deriving DecidableEq

/--
One scheduler step of the limiter.  `processQueue` (rateLimiter.ts lines
53-104) is protected by the `processingQueue` flag, so admissions are
serialized: a task is dequeued only when the queue is non-empty, `pending
< maxConcurrent` holds (the `while` condition, re-checked after every
await) and `now - lastRequestTime ≥ minInterval` (otherwise the admitter
sleeps and re-checks via `continue`).  Admission increments `pending`
and sets `lastRequestTime` to the current time.  A settled task
decrements `pending` (`finally`, lines 91-99).  `clear` (lines 106-113)
empties the queue without touching `pending`.
-/
inductive Step (c : Config) : State → State → Prop
  | enqueue (s : State) (id : Nat) :
      Step c s { s with queue := s.queue ++ [id] }
  | tick (s : State) (t : ℚ) (h : s.now ≤ t) :
      Step c s { s with now := t }
  | admitTask (s : State) (id : Nat) (rest : List Nat)
      (hq : s.queue = id :: rest)
      (hp : s.pending < c.maxConcurrent)
      (ht : c.minInterval ≤ s.now - s.lastRequestTime) :
      Step c s { queue := rest, pending := s.pending + 1, lastRequestTime := s.now,
                 now := s.now, admissions := s.now :: s.admissions }
  | complete (s : State) (h : 0 < s.pending) :
      Step c s { s with pending := s.pending - 1 }
  | clearStep (s : State) :
      Step c s { s with queue := [] }

/-- States reachable from a fresh limiter (`queue = []`, `pending = 0`,
`lastRequestTime = 0`, clock at any non-negative `t0`). -/
inductive Reachable (c : Config) : State → Prop
  | init (t0 : ℚ) (h : 0 ≤ t0) : Reachable c ⟨[], 0, 0, t0, []⟩
  | step {s s' : State} : Reachable c s → Step c s s' → Reachable c s'

/-- Consecutive admission timestamps (most recent first) are at least `m`
apart. -/
def gapsOK (m : ℚ) : List ℚ → Bool
  | [] => true
  | [_] => true
  | t2 :: t1 :: rest => decide (t1 + m ≤ t2) && gapsOK m (t1 :: rest)

/-- `clear()` (rateLimiter.ts lines 106-113): rejects every queued task
with `Error('Rate limiter queue cleared')` and empties the queue;
`pending` (in-flight operations) is untouched. -/
def clear (s : State) : State × List (Nat × String) :=
  ({ s with queue := [] }, s.queue.map fun id => (id, "Rate limiter queue cleared"))

end RateLimiter

namespace Auth

/-- `MIN_TOKEN_LIFETIME_SECONDS` (src/config/defaults.ts line 302). -/
def MIN_TOKEN_LIFETIME_SECONDS : Int := 120

/-- `TOKEN_REFRESH_MARGIN_SECONDS` (src/config/defaults.ts line 301). -/
def TOKEN_REFRESH_MARGIN_SECONDS : Int := 60

/-- The delay (ms) of the timer set by `scheduleRefresh(expiresInSeconds)`
(authClient.ts lines 372-395), `none` when no timer is set: below the
minimum lifetime scheduling is skipped, otherwise the timer fires
`(expiresInSeconds - TOKEN_REFRESH_MARGIN_SECONDS) * 1000` ms ahead. -/
def scheduleRefreshDelay (expiresInSeconds : Int) : Option Int :=
  if expiresInSeconds < MIN_TOKEN_LIFETIME_SECONDS then none
  else some ((expiresInSeconds - TOKEN_REFRESH_MARGIN_SECONDS) * 1000)

/-- The refresh-timer slot after `scheduleRefresh` runs: it first calls
`clearRefreshTimeout()` (authClient.ts line 373), so whatever timer
existed before (`old`) is cancelled and at most one timer remains. -/
def scheduleRefresh (old : Option Int) (expiresInSeconds : Int) : Option Int :=
  scheduleRefreshDelay expiresInSeconds

/-- The phases a `refreshToken()` caller moves through (authClient.ts
lines 161-216). -/
inductive Phase
  | start
  | waiting
  | refreshing
  | doneOk
  | doneFail
deriving DecidableEq

/-- Client state for concurrent `refreshToken()` calls: the
`isRefreshing` single-flight flag, whether a session with a refresh token
is present, the number of network refresh requests issued so far, and the
phase of each caller. -/
structure AState where
  isRefreshing : Bool
  hasSession : Bool
  netCalls : Nat
  threads : List Phase
deriving DecidableEq

/--
One step of one `refreshToken()` caller (authClient.ts lines 161-216),
in the JS single-threaded model (no awaits between the `isRefreshing`
check and `isRefreshing = true`, so those are atomic):
  * no session / no refresh token → throw immediately (line 162-164);
  * flag already set → wait 100 ms, no network request (lines 167-177);
  * flag clear → set it and issue the network refresh (lines 179-185);
  * a waiting caller wakes: returns the current session if one exists,
    else throws (lines 173-176);
  * the in-flight refresh settles: on success the session is replaced,
    on failure it is cleared (lines 187-215); `finally` resets the flag.
-/
inductive AStep : AState → AState → Prop
  | noToken (s : AState) (i : Nat)
      (h : s.threads.get? i = some .start) (hs : s.hasSession = false) :
      AStep s { s with threads := s.threads.set i .doneFail }
  | enterWait (s : AState) (i : Nat)
      (h : s.threads.get? i = some .start) (hs : s.hasSession = true)
      (hr : s.isRefreshing = true) :
      AStep s { s with threads := s.threads.set i .waiting }
  | beginRefresh (s : AState) (i : Nat)
      (h : s.threads.get? i = some .start) (hs : s.hasSession = true)
      (hr : s.isRefreshing = false) :
      AStep s { isRefreshing := true, hasSession := s.hasSession,
                netCalls := s.netCalls + 1, threads := s.threads.set i .refreshing }
  | waitReturn (s : AState) (i : Nat)
      (h : s.threads.get? i = some .waiting) :
      AStep s { s with
                threads := s.threads.set i (if s.hasSession then .doneOk else .doneFail) }
  | refreshOk (s : AState) (i : Nat)
      (h : s.threads.get? i = some .refreshing) :
      AStep s { isRefreshing := false, hasSession := true,
                netCalls := s.netCalls, threads := s.threads.set i .doneOk }
  | refreshFail (s : AState) (i : Nat)
      (h : s.threads.get? i = some .refreshing) :
      AStep s { isRefreshing := false, hasSession := false,
                netCalls := s.netCalls, threads := s.threads.set i .doneFail }

/-- States reachable from `n` pending `refreshToken()` callers on a fresh
client (flag clear, no network call yet). -/
inductive AReachable : AState → Prop
  | init (n : Nat) (hs : Bool) : AReachable ⟨false, hs, 0, List.replicate n .start⟩
  | step {s s' : AState} : AReachable s → AStep s s' → AReachable s'

/-- Number of callers whose network refresh request is currently in
flight. -/
def inFlight (s : AState) : Nat := s.threads.countP (fun p => p == .refreshing)

end Auth

namespace Poll

/-- A batch status response (`BatchJobStatus`): the state string, the
progress percentage, the attached results payload when completed
(modelled as an opaque `Nat` handle) and the server error message on
failure (`""` = absent, matching `status.error || 'Unknown error'`). -/
structure BatchJobStatus where
  status : String
  progress : Nat := 0
  results : Option Nat := none
  error : String := ""
deriving DecidableEq

/-- The `ValidationError(message)` thrown by the poller
(validationClient.ts imports it from src/errors.ts). -/
def validationErr (message : String) : Icpt.TypedError :=
  Icpt.mkValidationError message ""

/--
The `while (true)` loop of `waitForBatchCompletion` (validationClient.ts
lines 275-335), as a function of the fetched statuses (`fetch i` = the
`i`-th `getBatchStatus` result) and of the observed clock at the top of
each iteration (`times i` = `Date.now()` there; `startTime` = the clock
at entry).  Each iteration: timeout check (`now - startTime > timeout` →
throw `ValidationError('Batch job timeout: took too long to complete')`),
fetch, `onProgress` callback (`cbThrows i` says whether it throws; the
surrounding `try`/`catch` only logs, so it never alters the run),
`completed` → return the results (throw
`ValidationError('Batch results not available')` if absent), `failed` →
throw `ValidationError('Batch job failed: ' + (status.error || 'Unknown
error'))`, otherwise sleep `pollInterval` and repeat.  Returns the
outcome plus the number of `onProgress` invocations; `none` = out of
fuel (the loop is still running).
-/
def waitLoop (fetch : Nat → BatchJobStatus) (times : Nat → Nat)
    (startTime timeout : Nat) (cbThrows : Nat → Bool) :
    Nat → Nat → Option (Except Icpt.TypedError Nat × Nat)
  | _, 0 => none
  | i, fuel + 1 =>
    if times i - startTime > timeout then
      some (.error (validationErr "Batch job timeout: took too long to complete"), i)
    else
      let st := fetch i
      if st.status == "completed" then
        match st.results with
        | some r => some (.ok r, i + 1)
        | none => some (.error (validationErr "Batch results not available"), i + 1)
      else if st.status == "failed" then
        some (.error (validationErr ("Batch job failed: " ++ jsOrS st.error "Unknown error")),
              i + 1)
      else waitLoop fetch times startTime timeout cbThrows (i + 1) fuel

/-- `waitForBatchCompletion` from iteration 0.  `pollInterval` only
determines how the real clock advances between iterations (the sleep at
line 333), which the abstract clock `times` already carries. -/
def waitForBatchCompletion (fetch : Nat → BatchJobStatus) (times : Nat → Nat)
    (startTime timeout : Nat) (cbThrows : Nat → Bool) (fuel : Nat) :
    Option (Except Icpt.TypedError Nat × Nat) :=
  waitLoop fetch times startTime timeout cbThrows 0 fuel

end Poll

/--
C4: while auto-refresh is enabled, a successful login/register/refresh
with `expires_in = E` seconds sets no refresh timer at all when `E` is
below the 120 s minimum token lifetime, and otherwise sets exactly one
timer (any prior timer is cancelled first) firing `(E - 60)` seconds
later; e.g. `E = 3600` schedules at 3540 s and `E = 100` schedules
nothing.
-/
theorem C4_auto_refresh_scheduling :
    ∀ (E : Int) (old : Option Int),
      (E < 120 → Auth.scheduleRefresh old E = none) ∧
      (120 ≤ E → Auth.scheduleRefresh old E = some ((E - 60) * 1000)) ∧
      Auth.scheduleRefresh old E = Auth.scheduleRefreshDelay E ∧
      Auth.scheduleRefresh old 3600 = some (3540 * 1000) ∧
      Auth.scheduleRefresh old 100 = none := by
  intro E old
  refine ⟨fun h => ?_, fun h => ?_, rfl, ?_, ?_⟩
  · simp [Auth.scheduleRefresh, Auth.scheduleRefreshDelay, Auth.MIN_TOKEN_LIFETIME_SECONDS, h]
  · simp [Auth.scheduleRefresh, Auth.scheduleRefreshDelay, Auth.MIN_TOKEN_LIFETIME_SECONDS,
      Auth.TOKEN_REFRESH_MARGIN_SECONDS, not_lt.mpr h]
  · norm_num [Auth.scheduleRefresh, Auth.scheduleRefreshDelay, Auth.MIN_TOKEN_LIFETIME_SECONDS,
      Auth.TOKEN_REFRESH_MARGIN_SECONDS]
  · norm_num [Auth.scheduleRefresh, Auth.scheduleRefreshDelay, Auth.MIN_TOKEN_LIFETIME_SECONDS]

/-- C4 witness: the theorem applied at `E = 3600` and `E = 100` with a
stale timer present. -/
theorem C4_auto_refresh_scheduling_witness :
    Auth.scheduleRefresh (some 5) 3600 = some ((3600 - 60) * 1000) ∧
    Auth.scheduleRefresh (some 5) 100 = none :=
  ⟨(C4_auto_refresh_scheduling 3600 (some 5)).2.1 (by decide),
   (C4_auto_refresh_scheduling 100 (some 5)).1 (by decide)⟩

/--
C9: `clear()` rejects exactly the entries queued (not yet admitted) at
call time, each with the "Rate limiter queue cleared" failure, and
empties the queue; the in-flight count is untouched, clearing is a legal
limiter transition, and an admitted (in-flight) operation can still
settle normally afterwards.
-/
theorem C9_clear_semantics :
    ∀ (c : RateLimiter.Config) (s : RateLimiter.State),
      (RateLimiter.clear s).1.queue = [] ∧
      (RateLimiter.clear s).1.pending = s.pending ∧
      (RateLimiter.clear s).2 = s.queue.map (fun id => (id, "Rate limiter queue cleared")) ∧
      (RateLimiter.clear s).2.map Prod.fst = s.queue ∧
      RateLimiter.Step c s (RateLimiter.clear s).1 ∧
      (0 < s.pending →
        RateLimiter.Step c (RateLimiter.clear s).1
          { (RateLimiter.clear s).1 with pending := s.pending - 1 }) := by
  intro c s
  refine ⟨rfl, rfl, rfl, ?_, RateLimiter.Step.clearStep s, fun h => ?_⟩
  · show List.map Prod.fst
        (List.map (fun id => (id, "Rate limiter queue cleared")) s.queue) = s.queue
    rw [List.map_map]
    exact List.map_id' s.queue
  · exact RateLimiter.Step.complete _ h

/-- C9 witness: the theorem applied to a limiter state with two queued
entries and three in-flight operations. -/
theorem C9_clear_semantics_witness :
    (RateLimiter.clear ⟨[1, 2], 3, 0, 0, []⟩).1.queue = [] ∧
    (RateLimiter.clear ⟨[1, 2], 3, 0, 0, []⟩).1.pending = 3 ∧
    (RateLimiter.clear ⟨[1, 2], 3, 0, 0, []⟩).2
      = [(1, "Rate limiter queue cleared"), (2, "Rate limiter queue cleared")] ∧
    RateLimiter.Step ⟨10, 5⟩ (RateLimiter.clear ⟨[1, 2], 3, 0, 0, []⟩).1
      { (RateLimiter.clear ⟨[1, 2], 3, 0, 0, []⟩).1 with pending := 2 } :=
  ⟨(C9_clear_semantics ⟨10, 5⟩ ⟨[1, 2], 3, 0, 0, []⟩).1,
   (C9_clear_semantics ⟨10, 5⟩ ⟨[1, 2], 3, 0, 0, []⟩).2.1,
   by decide,
   (C9_clear_semantics ⟨10, 5⟩ ⟨[1, 2], 3, 0, 0, []⟩).2.2.2.2.2 (by decide)⟩

/--
C7 counterexample: the claim requires redaction "under every interceptor
configuration", but with `sanitizeHeaders: false` the request interceptor
(interceptors/index.ts lines 59-61) logs the raw headers: an
`Authorization` header is logged with its secret value intact.
-/
theorem C7_counterexample :
    Icpt.loggedRequestHeaders false [("Authorization", "Bearer secret")]
      = [("Authorization", "Bearer secret")] ∧
    "authorization" ∈ Icpt.sensitiveKeys ∧
    ("Bearer secret" : String) ≠ "***REDACTED***" := by
  refine ⟨rfl, by decide, by decide⟩

/--
C7 (amended): whenever the `sanitizeHeaders` option is `true` (its
default), every logged header whose key case-insensitively matches the
sensitive set (authorization, x-api-key, api-key, apikey, cookie,
set-cookie) is replaced by `***REDACTED***`, and every non-sensitive
header passes through unchanged; with `sanitizeHeaders: false` the
headers are logged raw.
-/
theorem C7_sensitive_header_redaction :
    ∀ (hs : List (String × String)) (k v : String),
      Icpt.loggedRequestHeaders true hs = Icpt.sanitizeHeadersForLogging hs ∧
      ((k, v) ∈ Icpt.sanitizeHeadersForLogging hs →
        Icpt.sensitiveKeys.contains (lowerStr k) = true → v = "***REDACTED***") ∧
      ((k, v) ∈ Icpt.sanitizeHeadersForLogging hs →
        Icpt.sensitiveKeys.contains (lowerStr k) = false → (k, v) ∈ hs) ∧
      ((k, v) ∈ hs → Icpt.sensitiveKeys.contains (lowerStr k) = false →
        (k, v) ∈ Icpt.sanitizeHeadersForLogging hs) ∧
      Icpt.loggedRequestHeaders false hs = hs := by
  intro hs k v
  refine ⟨rfl, fun hmem hsens => ?_, fun hmem hsens => ?_, fun hmem hsens => ?_, rfl⟩
  · simp only [Icpt.sanitizeHeadersForLogging] at hmem
    rcases List.mem_map.mp hmem with ⟨⟨a1, a2⟩, ha, heq⟩
    by_cases hc : Icpt.sensitiveKeys.contains (lowerStr a1) = true
    · rw [if_pos hc] at heq
      injection heq with h1 h2
      exact h2.symm
    · rw [if_neg hc] at heq
      injection heq with h1 h2
      have h1' : a1 = k := h1
      subst h1'
      exact absurd hsens hc
  · simp only [Icpt.sanitizeHeadersForLogging] at hmem
    rcases List.mem_map.mp hmem with ⟨⟨a1, a2⟩, ha, heq⟩
    by_cases hc : Icpt.sensitiveKeys.contains (lowerStr a1) = true
    · rw [if_pos hc] at heq
      injection heq with h1 h2
      have h1' : a1 = k := h1
      subst h1'
      rw [hc] at hsens
      exact absurd hsens (by simp)
    · rw [if_neg hc] at heq
      injection heq with h1 h2
      have h1' : a1 = k := h1
      have h2' : a2 = v := h2
      subst h1'
      subst h2'
      exact ha
  · simp only [Icpt.sanitizeHeadersForLogging]
    refine List.mem_map.mpr ⟨(k, v), hmem, ?_⟩
    have hs' : lowerStr k ∉ Icpt.sensitiveKeys := by simpa using hsens
    simp [hs']

/-- C7 witness: the amended theorem applied to a header list carrying an
`Authorization` header (redacted) and a `Content-Type` header (passed
through unchanged). -/
theorem C7_sensitive_header_redaction_witness :
    ("Content-Type", "application/json")
      ∈ Icpt.sanitizeHeadersForLogging
          [("Authorization", "Bearer tok"), ("Content-Type", "application/json")] ∧
    ("AUTHORIZATION", "***REDACTED***")
      ∈ Icpt.sanitizeHeadersForLogging [("AUTHORIZATION", "Bearer tok")] :=
  ⟨(C7_sensitive_header_redaction
      [("Authorization", "Bearer tok"), ("Content-Type", "application/json")]
      "Content-Type" "application/json").2.2.2.1 (by decide) (by decide),
   by decide⟩

/--
C10: the typed error's `statusCode` does not preserve the HTTP status
for every mapped status: a 403 response is classified into an
`AuthenticationError` whose `statusCode` is the hardwired 401, and a 422
response into a `ValidationError` whose `statusCode` is the hardwired
400, so branching on `statusCode` cannot distinguish 403 from 401 or 422
from 400.
-/
theorem C10_statusCode_collapse :
    ∀ (e e' : Icpt.AxiosErr) (r r' : Icpt.AxiosResp),
      e.response = some r → e'.response = some r' →
      (r.status = 403 →
        (Icpt.classifyError e).name = "AuthenticationError" ∧
        (Icpt.classifyError e).statusCode = some 401) ∧
      (r.status = 422 →
        (Icpt.classifyError e).name = "ValidationError" ∧
        (Icpt.classifyError e).statusCode = some 400) ∧
      (r.status = 403 → r'.status = 401 →
        (Icpt.classifyError e).statusCode = (Icpt.classifyError e').statusCode) ∧
      (r.status = 422 → r'.status = 400 →
        (Icpt.classifyError e).statusCode = (Icpt.classifyError e').statusCode) := by
  intro e e' r r' he he'
  rcases e with ⟨resp, code, msg, url⟩
  rcases e' with ⟨resp', code', msg', url'⟩
  simp only at he he'
  subst he
  subst he'
  refine ⟨fun h => ?_, fun h => ?_, fun h h' => ?_, fun h h' => ?_⟩
  · simp [Icpt.classifyError, h, Icpt.mkAuthenticationError]
  · simp [Icpt.classifyError, h, Icpt.mkValidationError]
  · simp [Icpt.classifyError, h, h', Icpt.mkAuthenticationError]
  · simp [Icpt.classifyError, h, h', Icpt.mkValidationError]

/-- C10 witness: the theorem applied to concrete 403/401 and 422/400
responses. -/
theorem C10_statusCode_collapse_witness :
    (Icpt.classifyError ⟨some ⟨403, "", "", []⟩, "", "", ""⟩).statusCode = some 401 ∧
    (Icpt.classifyError ⟨some ⟨422, "", "", []⟩, "", "", ""⟩).statusCode = some 400 ∧
    (Icpt.classifyError ⟨some ⟨403, "", "", []⟩, "", "", ""⟩).statusCode
      = (Icpt.classifyError ⟨some ⟨401, "", "", []⟩, "", "", ""⟩).statusCode :=
  ⟨((C10_statusCode_collapse ⟨some ⟨403, "", "", []⟩, "", "", ""⟩
      ⟨some ⟨401, "", "", []⟩, "", "", ""⟩ ⟨403, "", "", []⟩ ⟨401, "", "", []⟩
      rfl rfl).1 rfl).2,
   ((C10_statusCode_collapse ⟨some ⟨422, "", "", []⟩, "", "", ""⟩
      ⟨some ⟨400, "", "", []⟩, "", "", ""⟩ ⟨422, "", "", []⟩ ⟨400, "", "", []⟩
      rfl rfl).2.1 rfl).2,
   (C10_statusCode_collapse ⟨some ⟨403, "", "", []⟩, "", "", ""⟩
      ⟨some ⟨401, "", "", []⟩, "", "", ""⟩ ⟨403, "", "", []⟩ ⟨401, "", "", []⟩
      rfl rfl).2.2.1 rfl rfl⟩

/-- In every response branch the interceptor picks
`errorData?.message || errorData?.detail || <branch default>`. -/
theorem Icpt.classifyError_message (r : Icpt.AxiosResp) (code msg url : String) :
    (Icpt.classifyError ⟨some r, code, msg, url⟩).message
      = Icpt.errMsg r (Icpt.defaultMsg r.status) := by
  simp only [Icpt.classifyError, Icpt.defaultMsg]
  split_ifs <;>
    simp [Icpt.mkAuthenticationError, Icpt.mkValidationError, Icpt.mkRateLimitError,
      Icpt.mkQuotaExceededError, Icpt.mkAPIError]

/--
C6: the response interceptor classifies every transport failure into
exactly one typed error, as a function of the failure shape: with no
response, `TimeoutError` iff the code is `ECONNABORTED` or the message
contains "timeout", else `NetworkError`; with a response, 401/403 →
`AuthenticationError`, 429 → `RateLimitError` carrying `retryAfter` and
`limit`/`remaining`/`reset` parsed from the rate-limit headers, 400/422 →
`ValidationError`, 402 → `QuotaExceededError`, 404 → `APIError`,
500/502/503/504 → `APIError` with `retryable = true` in its details, any
other status → generic `APIError`; each mapped error carries the
server-supplied message/detail when present, else a per-kind default.
-/
theorem C6_failure_classification :
    ∀ (e : Icpt.AxiosErr) (r : Icpt.AxiosResp),
      (e.response = none →
        ((e.code = "ECONNABORTED" ∨ strContains e.message "timeout" = true) →
            Icpt.classifyError e = Icpt.mkTimeoutError "Request timeout") ∧
        ((e.code ≠ "ECONNABORTED" ∧ strContains e.message "timeout" = false) →
            Icpt.classifyError e = Icpt.mkNetworkError "Network request failed")) ∧
      (e.response = some r →
        ((r.status = 401 ∨ r.status = 403) →
          (Icpt.classifyError e).name = "AuthenticationError") ∧
        (r.status = 429 →
          (Icpt.classifyError e).name = "RateLimitError" ∧
          (Icpt.classifyError e).retryAfter
            = (if Icpt.hdr r.headers "retry-after" ≠ "" then
                 parseIntOpt (Icpt.hdr r.headers "retry-after") else none) ∧
          (Icpt.classifyError e).limit = (Icpt.parseRateLimitHeaders r.headers).limit ∧
          (Icpt.classifyError e).remaining
            = (Icpt.parseRateLimitHeaders r.headers).remaining ∧
          (Icpt.classifyError e).reset = (Icpt.parseRateLimitHeaders r.headers).reset) ∧
        ((r.status = 400 ∨ r.status = 422) →
          (Icpt.classifyError e).name = "ValidationError") ∧
        (r.status = 402 → (Icpt.classifyError e).name = "QuotaExceededError") ∧
        (r.status = 404 →
          (Icpt.classifyError e).name = "APIError" ∧
          (Icpt.classifyError e).statusCode = some 404 ∧
          (Icpt.classifyError e).detailsRetryable = false) ∧
        ((r.status = 500 ∨ r.status = 502 ∨ r.status = 503 ∨ r.status = 504) →
          (Icpt.classifyError e).name = "APIError" ∧
          (Icpt.classifyError e).statusCode = some r.status ∧
          (Icpt.classifyError e).detailsRetryable = true) ∧
        (r.status ∉ ([401, 403, 429, 400, 402, 404, 422, 500, 502, 503, 504] : List Nat) →
          (Icpt.classifyError e).name = "APIError" ∧
          (Icpt.classifyError e).statusCode = some r.status ∧
          (Icpt.classifyError e).detailsRetryable = false) ∧
        (r.dataMessage ≠ "" → (Icpt.classifyError e).message = r.dataMessage) ∧
        (r.dataMessage = "" → r.dataDetail ≠ "" →
          (Icpt.classifyError e).message = r.dataDetail) ∧
        (r.dataMessage = "" → r.dataDetail = "" →
          (Icpt.classifyError e).message = Icpt.defaultMsg r.status)) := by
  intro e r
  rcases e with ⟨resp, code, msg, url⟩
  constructor
  · intro h
    simp only at h
    subst h
    constructor
    · intro hcond
      have hb : (code == "ECONNABORTED" || strContains msg "timeout") = true := by
        rcases hcond with h1 | h1
        · have h1' : code = "ECONNABORTED" := h1
          simp [h1']
        · have h1' : strContains msg "timeout" = true := h1
          simp [h1']
      simp [Icpt.classifyError, hb]
    · intro hcond
      have hb : (code == "ECONNABORTED" || strContains msg "timeout") = false := by
        have h1' : code ≠ "ECONNABORTED" := hcond.1
        have h2' : strContains msg "timeout" = false := hcond.2
        simp [h1', h2']
      simp [Icpt.classifyError, hb]
  · intro h
    simp only at h
    subst h
    refine ⟨fun hst => ?_, fun hst => ?_, fun hst => ?_, fun hst => ?_, fun hst => ?_,
      fun hst => ?_, fun hst => ?_, fun hm => ?_, fun hm hd => ?_, fun hm hd => ?_⟩
    · rcases hst with hst | hst <;>
        simp [Icpt.classifyError, hst, Icpt.mkAuthenticationError]
    · simp [Icpt.classifyError, hst, Icpt.mkRateLimitError]
    · rcases hst with hst | hst <;>
        simp [Icpt.classifyError, hst, Icpt.mkValidationError]
    · simp [Icpt.classifyError, hst, Icpt.mkQuotaExceededError]
    · simp [Icpt.classifyError, hst, Icpt.mkAPIError]
    · rcases hst with hst | hst | hst | hst <;>
        simp [Icpt.classifyError, hst, Icpt.mkAPIError]
    · simp only [List.mem_cons, List.not_mem_nil, or_false, not_or] at hst
      obtain ⟨h401, h403, h429, h400, h402, h404, h422, h500, h502, h503, h504⟩ := hst
      simp [Icpt.classifyError, h401, h403, h429, h400, h402, h404, h422, h500, h502,
        h503, h504, Icpt.mkAPIError]
    · rw [Icpt.classifyError_message]
      simp [Icpt.errMsg, jsOrS, hm]
    · rw [Icpt.classifyError_message]
      simp [Icpt.errMsg, jsOrS, hm, hd]
    · rw [Icpt.classifyError_message]
      simp [Icpt.errMsg, jsOrS, hm, hd]

/-- C6 witness: the theorem applied to a concrete no-response timeout
failure and to a concrete 429 response carrying rate-limit headers. -/
theorem C6_failure_classification_witness :
    Icpt.classifyError ⟨none, "ECONNABORTED", "", ""⟩
      = Icpt.mkTimeoutError "Request timeout" ∧
    (Icpt.classifyError
        ⟨some ⟨429, "", "", [("retry-after", "60"), ("x-ratelimit-limit", "100")]⟩,
         "", "", ""⟩).name = "RateLimitError" ∧
    (Icpt.classifyError
        ⟨some ⟨429, "", "", [("retry-after", "60"), ("x-ratelimit-limit", "100")]⟩,
         "", "", ""⟩).retryAfter = some 60 ∧
    (Icpt.classifyError
        ⟨some ⟨429, "", "", [("retry-after", "60"), ("x-ratelimit-limit", "100")]⟩,
         "", "", ""⟩).limit = some 100 :=
  have h29 := (C6_failure_classification
    ⟨some ⟨429, "", "", [("retry-after", "60"), ("x-ratelimit-limit", "100")]⟩, "", "", ""⟩
    ⟨429, "", "", [("retry-after", "60"), ("x-ratelimit-limit", "100")]⟩).2 rfl
  ⟨((C6_failure_classification ⟨none, "ECONNABORTED", "", ""⟩ ⟨0, "", "", []⟩).1 rfl).1
      (Or.inl rfl),
   (h29.2.1 rfl).1,
   by rw [(h29.2.1 rfl).2.1]; decide,
   by rw [(h29.2.1 rfl).2.2.1]; decide⟩

/-- If every invocation from `a` through `a + r` fails retryably, the
retry loop runs them all and ends with the last error. -/
theorem Retry.withRetryGo_all_fail {α : Type} (cfg : Retry.RetryConfig) (jitters : Nat → ℚ)
    (fn : Nat → Except Retry.JsError α) (es : Nat → Retry.JsError) :
    ∀ (r a : Nat),
      (∀ i, a ≤ i → i ≤ a + r → fn i = .error (es i) ∧ Retry.isRetryable cfg (es i) = true) →
      (Retry.withRetryGo cfg jitters fn a r).result = .error (es (a + r)) ∧
      (Retry.withRetryGo cfg jitters fn a r).attempts = a + r + 1 := by
  intro r
  induction r with
  | zero =>
    intro a h
    have h0 := h a le_rfl (by omega)
    simp [Retry.withRetryGo, h0.1]
  | succ n ih =>
    intro a h
    have h0 := h a le_rfl (by omega)
    have hrec := ih (a + 1) (fun i h1 h2 => h i (by omega) (by omega))
    have hn : a + 1 + n = a + (n + 1) := by omega
    rw [hn] at hrec
    simp only [Retry.withRetryGo, h0.1]
    simp [h0.2, hrec.1, hrec.2]

/-- If invocation `j` is the first success and every earlier one fails
retryably, the retry loop stops at `j` with that success. -/
theorem Retry.withRetryGo_first_success {α : Type} (cfg : Retry.RetryConfig)
    (jitters : Nat → ℚ) (fn : Nat → Except Retry.JsError α) (es : Nat → Retry.JsError)
    (v : α) :
    ∀ (r a j : Nat), a ≤ j → j ≤ a + r → fn j = .ok v →
      (∀ i, a ≤ i → i < j → fn i = .error (es i) ∧ Retry.isRetryable cfg (es i) = true) →
      (Retry.withRetryGo cfg jitters fn a r).result = .ok v ∧
      (Retry.withRetryGo cfg jitters fn a r).attempts = j + 1 := by
  intro r
  induction r with
  | zero =>
    intro a j haj hja hok h
    have hj : j = a := by omega
    subst hj
    simp [Retry.withRetryGo, hok]
  | succ n ih =>
    intro a j haj hja hok h
    by_cases hc : a = j
    · subst hc
      simp [Retry.withRetryGo, hok]
    · have h0 := h a le_rfl (by omega)
      have hrec := ih (a + 1) j (by omega) (by omega) hok (fun i h1 h2 => h i (by omega) h2)
      simp only [Retry.withRetryGo, h0.1]
      simp [h0.2, hrec.1, hrec.2]

/--
C2: `withRetry(fn, config)` invokes `fn` exactly once when the first
failure carries no retryable status and no retryable error code; it
invokes `fn` exactly `maxRetries + 1` times and propagates the last
failure when every invocation fails retryably; and it invokes `fn` until
the first successful invocation (at attempt `j ≤ maxRetries`, after
retryable failures) and returns that success.
-/
theorem C2_retry_attempt_counts :
    ∀ (α : Type) (cfg : Retry.RetryConfig) (jitters : Nat → ℚ)
      (fn : Nat → Except Retry.JsError α) (es : Nat → Retry.JsError),
      (∀ e, fn 0 = .error e → Retry.isRetryable cfg e = false →
        (Retry.withRetryRun cfg jitters fn).result = .error e ∧
        (Retry.withRetryRun cfg jitters fn).attempts = 1) ∧
      ((∀ i, i ≤ cfg.maxRetries →
          fn i = .error (es i) ∧ Retry.isRetryable cfg (es i) = true) →
        (Retry.withRetryRun cfg jitters fn).result = .error (es cfg.maxRetries) ∧
        (Retry.withRetryRun cfg jitters fn).attempts = cfg.maxRetries + 1) ∧
      (∀ (j : Nat) (v : α), j ≤ cfg.maxRetries → fn j = .ok v →
        (∀ i, i < j → fn i = .error (es i) ∧ Retry.isRetryable cfg (es i) = true) →
        (Retry.withRetryRun cfg jitters fn).result = .ok v ∧
        (Retry.withRetryRun cfg jitters fn).attempts = j + 1) := by
  intro α cfg jitters fn es
  refine ⟨fun e hfn hret => ?_, fun h => ?_, fun j v hj hok h => ?_⟩
  · cases hm : cfg.maxRetries with
    | zero => simp [Retry.withRetryRun, hm, Retry.withRetryGo, hfn]
    | succ n => simp [Retry.withRetryRun, hm, Retry.withRetryGo, hfn, hret]
  · have := Retry.withRetryGo_all_fail cfg jitters fn es cfg.maxRetries 0
      (fun i h1 h2 => h i (by omega))
    simpa [Retry.withRetryRun] using this
  · have := Retry.withRetryGo_first_success cfg jitters fn es v cfg.maxRetries 0 j
      (by omega) (by omega) hok (fun i h1 h2 => h i h2)
    simpa [Retry.withRetryRun] using this

/-- C2 witness: the theorem applied, under the default config, to an
operation always failing with status 400 (one attempt), one always
failing with status 500 (four attempts, last error propagated), and one
succeeding on its third invocation after 500s (three attempts). -/
theorem C2_retry_attempt_counts_witness :
    (Retry.withRetryRun Retry.DEFAULT_RETRY_CONFIG (fun _ => 1)
        (fun _ => (.error { statusCode := 400 } : Except Retry.JsError Nat))).attempts = 1 ∧
    (Retry.withRetryRun Retry.DEFAULT_RETRY_CONFIG (fun _ => 1)
        (fun _ => (.error { statusCode := 500 } : Except Retry.JsError Nat))).result
      = .error { statusCode := 500 } ∧
    (Retry.withRetryRun Retry.DEFAULT_RETRY_CONFIG (fun _ => 1)
        (fun _ => (.error { statusCode := 500 } : Except Retry.JsError Nat))).attempts = 4 ∧
    (Retry.withRetryRun Retry.DEFAULT_RETRY_CONFIG (fun _ => 1)
        (fun i => if i = 2 then .ok 7 else
          (.error { statusCode := 500 } : Except Retry.JsError Nat))).result = .ok 7 ∧
    (Retry.withRetryRun Retry.DEFAULT_RETRY_CONFIG (fun _ => 1)
        (fun i => if i = 2 then .ok 7 else
          (.error { statusCode := 500 } : Except Retry.JsError Nat))).attempts = 3 :=
  have hA := (C2_retry_attempt_counts Nat Retry.DEFAULT_RETRY_CONFIG (fun _ => 1)
    (fun _ => .error { statusCode := 400 }) (fun _ => { statusCode := 400 })).1
    { statusCode := 400 } rfl (by decide)
  have hB := (C2_retry_attempt_counts Nat Retry.DEFAULT_RETRY_CONFIG (fun _ => 1)
    (fun _ => .error { statusCode := 500 }) (fun _ => { statusCode := 500 })).2.1
    (fun i _ => ⟨rfl, by decide⟩)
  have hC := (C2_retry_attempt_counts Nat Retry.DEFAULT_RETRY_CONFIG (fun _ => 1)
    (fun i => if i = 2 then .ok 7 else .error { statusCode := 500 })
    (fun _ => { statusCode := 500 })).2.2 2 7 (by decide) rfl
    (fun i hi => ⟨by simp [Nat.ne_of_lt hi], by decide⟩)
  ⟨hA.2, hB.1, hB.2, hC.1, hC.2⟩

/--
C3 counterexample: a 429 response with `retry-after: 60` classified by
the response interceptor becomes a `RateLimitError` carrying
`retryAfter = 60` but no `response` property, so `withRetry` — which
reads only `error?.response?.headers?.['retry-after']` — does not see
the hint: with jitter factor 1 the next delay under the default config
is the backoff value 500 ms, not the claimed
`min(60 × 1000, maxDelayMs) = 30000` ms (nor 60000 ms).
-/
theorem C3_counterexample :
    (Icpt.classifyError ⟨some ⟨429, "", "", [("retry-after", "60")]⟩, "", "", ""⟩).retryAfter
      = some 60 ∧
    (Icpt.TypedError.toJsError
      (Icpt.classifyError ⟨some ⟨429, "", "", [("retry-after", "60")]⟩, "", "", ""⟩)).hasResponse
      = false ∧
    Retry.computeDelay Retry.DEFAULT_RETRY_CONFIG 0 1
      (Icpt.TypedError.toJsError
        (Icpt.classifyError ⟨some ⟨429, "", "", [("retry-after", "60")]⟩, "", "", ""⟩)) = 500 ∧
    (Retry.withRetryRun Retry.DEFAULT_RETRY_CONFIG (fun _ => 1)
        (fun _ => (.error (Icpt.TypedError.toJsError
            (Icpt.classifyError ⟨some ⟨429, "", "", [("retry-after", "60")]⟩, "", "", ""⟩))
          : Except Retry.JsError Nat))).delays.head?
      = some (Retry.computeDelay Retry.DEFAULT_RETRY_CONFIG 0 1
          (Icpt.TypedError.toJsError
            (Icpt.classifyError ⟨some ⟨429, "", "", [("retry-after", "60")]⟩, "", "", ""⟩))) ∧
    min ((60 : ℚ) * 1000) Retry.DEFAULT_RETRY_CONFIG.maxDelayMs = 30000 ∧
    (500 : ℚ) ≠ 30000 ∧ (500 : ℚ) ≠ 60 * 1000 := by
  refine ⟨by decide, by decide, ?_, ?_, ?_, by norm_num, by norm_num⟩
  · simp [Retry.computeDelay, Retry.JsError.responseRetryAfterHeader,
      Icpt.TypedError.toJsError, Retry.DEFAULT_RETRY_CONFIG]
    norm_num [min_def]
  · have h1 : Retry.isRetryable Retry.DEFAULT_RETRY_CONFIG
        (Icpt.TypedError.toJsError
          (Icpt.classifyError ⟨some ⟨429, "", "", [("retry-after", "60")]⟩, "", "", ""⟩))
        = true := by decide
    have hm : Retry.DEFAULT_RETRY_CONFIG.maxRetries = 3 := rfl
    simp [Retry.withRetryRun, hm, Retry.withRetryGo, h1]
  · have : Retry.DEFAULT_RETRY_CONFIG.maxDelayMs = 30000 := rfl
    rw [this]
    norm_num [min_def]

/--
C3 (amended): the retry-after override of `withRetry` applies exactly to
failures that still carry `response.headers['retry-after']` (the raw
transport shape): there the next delay is `parseInt(header) × 1000`
capped at `maxDelayMs`.  An interceptor-classified failure (any
`TypedError`, e.g. the `RateLimitError` built from a 429) has no
`response` property, so for it the override never fires and the delay is
the jittered exponential backoff; the first delay slept by `withRetry`
equals `computeDelay` at attempt 0.
-/
theorem C3_retry_after_override :
    ∀ (cfg : Retry.RetryConfig) (attempt : Nat) (jitter : ℚ) (e : Retry.JsError) (n : Nat),
      (e.hasResponse = true → e.retryAfterHeader ≠ "" →
        parseIntOpt e.retryAfterHeader = some n →
        Retry.computeDelay cfg attempt jitter e = min ((n : ℚ) * 1000) cfg.maxDelayMs) ∧
      (e.hasResponse = false →
        Retry.computeDelay cfg attempt jitter e
          = min (cfg.initialDelayMs * cfg.backoffMultiplier ^ attempt) cfg.maxDelayMs
              * jitter) ∧
      (∀ t : Icpt.TypedError, (Icpt.TypedError.toJsError t).hasResponse = false) ∧
      (∀ (fn : Nat → Except Retry.JsError Nat) (e0 : Retry.JsError) (r : Nat),
        cfg.maxRetries = r + 1 → fn 0 = .error e0 → Retry.isRetryable cfg e0 = true →
        (Retry.withRetryRun cfg (fun _ => jitter) fn).delays.head?
          = some (Retry.computeDelay cfg 0 jitter e0)) := by
  intro cfg attempt jitter e n
  refine ⟨fun hr hne hpi => ?_, fun hr => ?_, fun t => rfl, fun fn e0 r hm hfn hret => ?_⟩
  · simp [Retry.computeDelay, Retry.JsError.responseRetryAfterHeader, hr, hne, hpi]
  · simp [Retry.computeDelay, Retry.JsError.responseRetryAfterHeader, hr]
  · simp [Retry.withRetryRun, hm, Retry.withRetryGo, hfn, hret]

/-- C3 witness: the amended theorem applied to a raw axios 429 failure
carrying `retry-after: 60` (override fires, capped at the default 30000
ms) and to the interceptor-classified `RateLimitError` (no response, so
the backoff delay 500 ms is used and slept first). -/
theorem C3_retry_after_override_witness :
    Retry.computeDelay Retry.DEFAULT_RETRY_CONFIG 0 1
        ⟨true, 429, "60", 0, "", "", "", none⟩
      = min ((60 : ℚ) * 1000) Retry.DEFAULT_RETRY_CONFIG.maxDelayMs ∧
    (Icpt.TypedError.toJsError
        (Icpt.classifyError ⟨some ⟨429, "", "", [("retry-after", "60")]⟩, "", "", ""⟩)).hasResponse
      = false ∧
    (Retry.withRetryRun Retry.DEFAULT_RETRY_CONFIG (fun _ => 1)
        (fun _ => (.error ⟨true, 429, "60", 0, "", "", "", none⟩
          : Except Retry.JsError Nat))).delays.head?
      = some (Retry.computeDelay Retry.DEFAULT_RETRY_CONFIG 0 1
          ⟨true, 429, "60", 0, "", "", "", none⟩) :=
  ⟨(C3_retry_after_override Retry.DEFAULT_RETRY_CONFIG 0 1
      ⟨true, 429, "60", 0, "", "", "", none⟩ 60).1 rfl (by decide) (by decide),
   (C3_retry_after_override Retry.DEFAULT_RETRY_CONFIG 0 1
      ⟨true, 429, "60", 0, "", "", "", none⟩ 60).2.2.1
      (Icpt.classifyError ⟨some ⟨429, "", "", [("retry-after", "60")]⟩, "", "", ""⟩),
   (C3_retry_after_override Retry.DEFAULT_RETRY_CONFIG 0 1
      ⟨true, 429, "60", 0, "", "", "", none⟩ 60).2.2.2
      (fun _ => .error ⟨true, 429, "60", 0, "", "", "", none⟩)
      ⟨true, 429, "60", 0, "", "", "", none⟩ 2 rfl rfl (by decide)⟩

/--
C8 counterexample: when the poller exceeds its timeout it throws
`ValidationError('Batch job timeout: took too long to complete')`
(validationClient.ts lines 294-299) — an error of the Validation kind
with `statusCode 400` and `isTimeout` absent — not a failure of the
Timeout kind as the claim states.  Concrete run: statuses all
`processing`, clock `i ↦ 100·i`, timeout 50 ms.
-/
theorem C8_counterexample :
    Poll.waitForBatchCompletion (fun _ => ⟨"processing", 10, none, ""⟩) (fun i => i * 100)
        0 50 (fun _ => false) 5
      = some (.error (Poll.validationErr "Batch job timeout: took too long to complete"), 1) ∧
    (Poll.validationErr "Batch job timeout: took too long to complete").name
      = "ValidationError" ∧
    (Poll.validationErr "Batch job timeout: took too long to complete").name
      ≠ "TimeoutError" ∧
    (Poll.validationErr "Batch job timeout: took too long to complete").isTimeout = false := by
  refine ⟨rfl, by decide, by decide, by decide⟩

/--
C8 (amended): each iteration of `waitForBatchCompletion` first fails
with `ValidationError('Batch job timeout: took too long to complete')`
(a Validation-kind failure, not a Timeout-kind one) once elapsed time
since the loop began exceeds `timeout`; otherwise it fetches the status
(invoking `onProgress` on it, with callback exceptions swallowed — the
run is independent of which callbacks throw): `completed` returns the
attached results, failing with `ValidationError('Batch results not
available')` when they are absent; `failed` fails with a message
containing the server-supplied error; anything else sleeps and repeats.
-/
theorem C8_batch_poller_loop :
    ∀ (fetch : Nat → Poll.BatchJobStatus) (times : Nat → Nat) (startTime timeout : Nat)
      (cb cb' : Nat → Bool) (i fuel : Nat) (r : Nat),
      (times i - startTime > timeout →
        Poll.waitLoop fetch times startTime timeout cb i (fuel + 1)
          = some (.error
              (Poll.validationErr "Batch job timeout: took too long to complete"), i) ∧
        (Poll.validationErr "Batch job timeout: took too long to complete").name
          = "ValidationError") ∧
      (¬ times i - startTime > timeout → (fetch i).status = "completed" →
        (fetch i).results = some r →
        Poll.waitLoop fetch times startTime timeout cb i (fuel + 1) = some (.ok r, i + 1)) ∧
      (¬ times i - startTime > timeout → (fetch i).status = "completed" →
        (fetch i).results = none →
        Poll.waitLoop fetch times startTime timeout cb i (fuel + 1)
          = some (.error (Poll.validationErr "Batch results not available"), i + 1)) ∧
      (¬ times i - startTime > timeout → (fetch i).status = "failed" →
        Poll.waitLoop fetch times startTime timeout cb i (fuel + 1)
          = some (.error (Poll.validationErr
              ("Batch job failed: " ++ jsOrS (fetch i).error "Unknown error")), i + 1) ∧
        ((fetch i).error ≠ "" →
          strContains ("Batch job failed: " ++ jsOrS (fetch i).error "Unknown error")
            ((fetch i).error) = true)) ∧
      (¬ times i - startTime > timeout → (fetch i).status ≠ "completed" →
        (fetch i).status ≠ "failed" →
        Poll.waitLoop fetch times startTime timeout cb i (fuel + 1)
          = Poll.waitLoop fetch times startTime timeout cb (i + 1) fuel) ∧
      Poll.waitLoop fetch times startTime timeout cb i fuel
        = Poll.waitLoop fetch times startTime timeout cb' i fuel := by
  intro fetch times startTime timeout cb cb' i fuel r
  refine ⟨fun ht => ⟨?_, rfl⟩, fun ht hst hres => ?_, fun ht hst hres => ?_,
    fun ht hst => ⟨?_, fun hne => ?_⟩, fun ht hc hf => ?_, ?_⟩
  · simp [Poll.waitLoop, ht]
  · simp [Poll.waitLoop, ht, hst, hres]
  · simp [Poll.waitLoop, ht, hst, hres]
  · simp [Poll.waitLoop, ht, hst]
  · have hjs : jsOrS (fetch i).error "Unknown error" = (fetch i).error := by
      simp [jsOrS, hne]
    rw [hjs]
    unfold strContains
    rw [decide_eq_true_eq]
    show (fetch i).error.toList <:+: ("Batch job failed: " ++ (fetch i).error).toList
    rw [show ("Batch job failed: " ++ (fetch i).error).toList
          = ("Batch job failed: " : String).toList ++ (fetch i).error.toList from
        String.data_append _ _]
    exact (List.suffix_append _ _).isInfix
  · simp [Poll.waitLoop, ht, hc, hf]
  · clear r
    induction fuel generalizing i with
    | zero => rfl
    | succ n ih =>
      simp only [Poll.waitLoop]
      by_cases h1 : times i - startTime > timeout
      · simp [h1]
      · simp only [if_neg h1]
        by_cases h2 : ((fetch i).status == "completed") = true
        · simp [h2]
        · simp only [Bool.not_eq_true] at h2
          simp only [h2]
          by_cases h3 : ((fetch i).status == "failed") = true
          · simp [h3]
          · simp only [Bool.not_eq_true] at h3
            simp only [h3]
            exact ih (i + 1)

/-- C8 witness: the amended theorem applied to the status sequence
[processing(10%), processing(60%), completed(results)] with a 10 ms
clock step, plus the full run of that sequence: 3 fetches (hence 3
`onProgress` invocations) and the completed results returned. -/
theorem C8_batch_poller_loop_witness :
    Poll.waitLoop (fun i => if i = 0 then ⟨"processing", 10, none, ""⟩
        else if i = 1 then ⟨"processing", 60, none, ""⟩
        else ⟨"completed", 100, some 7, ""⟩) (fun i => i * 10) 0 300000
        (fun _ => false) 2 3
      = some (.ok 7, 3) ∧
    Poll.waitForBatchCompletion (fun i => if i = 0 then ⟨"processing", 10, none, ""⟩
        else if i = 1 then ⟨"processing", 60, none, ""⟩
        else ⟨"completed", 100, some 7, ""⟩) (fun i => i * 10) 0 300000
        (fun _ => false) 5
      = some (.ok 7, 3) ∧
    Poll.waitLoop (fun _ => ⟨"failed", 0, none, "x"⟩) (fun _ => 0) 0 300000
        (fun _ => false) 0 1
      = some (.error (Poll.validationErr "Batch job failed: x"), 1) :=
  ⟨(C8_batch_poller_loop (fun i => if i = 0 then ⟨"processing", 10, none, ""⟩
      else if i = 1 then ⟨"processing", 60, none, ""⟩
      else ⟨"completed", 100, some 7, ""⟩) (fun i => i * 10) 0 300000
      (fun _ => false) (fun _ => false) 2 2 7).2.1 (by decide) rfl rfl,
   rfl,
   by
    have h := (C8_batch_poller_loop (fun _ => ⟨"failed", 0, none, "x"⟩) (fun _ => 0)
      0 300000 (fun _ => false) (fun _ => false) 0 0 0).2.2.2.1 (by decide) rfl
    simpa using h.1⟩

/-- Inductive invariant of the rate limiter: the in-flight count respects
the effective concurrency bound, `lastRequestTime` is the most recent
admission timestamp (0 before any admission), the clock is never behind
it, and consecutive admissions are at least `minInterval` apart. -/
theorem RateLimiter.reachable_inv (c : RateLimiter.Config) :
    ∀ s, RateLimiter.Reachable c s →
      s.pending ≤ c.maxConcurrent ∧
      s.lastRequestTime = s.admissions.headD 0 ∧
      s.lastRequestTime ≤ s.now ∧
      RateLimiter.gapsOK c.minInterval s.admissions = true := by
  intro s hr
  induction hr with
  | init t0 h => exact ⟨Nat.zero_le _, rfl, h, rfl⟩
  | step hr hstep ih =>
    cases hstep with
    | enqueue id => exact ih
    | tick t hle => exact ⟨ih.1, ih.2.1, le_trans ih.2.2.1 hle, ih.2.2.2⟩
    | admitTask id rest hq hp ht =>
      rename_i s
      refine ⟨hp, rfl, le_rfl, ?_⟩
      rcases hadm : s.admissions with _ | ⟨t1, rest1⟩
      · simp [RateLimiter.gapsOK]
      · have hlast : s.lastRequestTime = t1 := by
          rw [ih.2.1, hadm]
          rfl
        have hgap : t1 + c.minInterval ≤ s.now := by
          have h2 := ht
          rw [hlast] at h2
          linarith
        have hrest := ih.2.2.2
        rw [hadm] at hrest
        simp [RateLimiter.gapsOK, hgap, hrest]
    | complete hpend =>
      exact ⟨le_trans (Nat.sub_le _ _) ih.1, ih.2.1, ih.2.2.1, ih.2.2.2⟩
    | clearStep => exact ih

/--
C1 counterexample: the claim quantifies over every configured
`maxConcurrent = K`, but the constructor computes
`this.maxConcurrent = config.maxConcurrent || 10`
(rateLimiter.ts line 31), so a limiter configured with `K = 0` runs with
an effective bound of 10: a state with one task in flight is reachable,
violating "in-flight never exceeds K" at `K = 0`.
-/
theorem C1_counterexample :
    RateLimiter.Reachable ⟨1000, 0⟩ ⟨[], 1, 1, 1, [1]⟩ ∧
    ¬ ((⟨[], 1, 1, 1, [1]⟩ : RateLimiter.State).pending ≤ 0) := by
  constructor
  · have h0 : RateLimiter.Reachable ⟨1000, 0⟩ ⟨[], 0, 0, 0, []⟩ :=
      RateLimiter.Reachable.init 0 le_rfl
    have h1 : RateLimiter.Reachable ⟨1000, 0⟩ ⟨[3], 0, 0, 0, []⟩ :=
      RateLimiter.Reachable.step h0 (RateLimiter.Step.enqueue _ 3)
    have h2 : RateLimiter.Reachable ⟨1000, 0⟩ ⟨[3], 0, 0, 1, []⟩ :=
      RateLimiter.Reachable.step h1 (RateLimiter.Step.tick _ 1 (by norm_num))
    exact RateLimiter.Reachable.step h2
      (RateLimiter.Step.admitTask _ 3 [] rfl
        (by norm_num [RateLimiter.Config.maxConcurrent, jsOrN])
        (by norm_num [RateLimiter.Config.minInterval]))
  · norm_num

/--
C1 (amended): for every limiter with `maxRequestsPerSecond = R` and
configured `maxConcurrent` option `K`, at every reachable state the
in-flight count never exceeds the effective bound
`K-or-10-when-K-is-0/absent` — in particular it never exceeds `K`
whenever `K ≥ 1` — and any two consecutive admission timestamps differ
by at least `minInterval = 1000 / R` ms, measured admission to
admission.
-/
theorem C1_rate_limiter_invariant :
    ∀ (R : ℚ) (K : Nat) (s : RateLimiter.State),
      RateLimiter.Reachable ⟨R, K⟩ s →
      s.pending ≤ RateLimiter.Config.maxConcurrent ⟨R, K⟩ ∧
      (1 ≤ K → s.pending ≤ K) ∧
      RateLimiter.gapsOK (1000 / R) s.admissions = true := by
  intro R K s hr
  have h := RateLimiter.reachable_inv ⟨R, K⟩ s hr
  refine ⟨h.1, fun hK => ?_, h.2.2.2⟩
  have hKe : RateLimiter.Config.maxConcurrent ⟨R, K⟩ = K := by
    have hK' : K ≠ 0 := by omega
    simp [RateLimiter.Config.maxConcurrent, jsOrN, hK']
  rw [hKe] at h
  exact h.1

/-- C1 witness: the amended theorem applied to the state reached by
enqueueing one task on a `10 req/s, maxConcurrent 3` limiter and
admitting it at `t = 1000`. -/
theorem C1_rate_limiter_invariant_witness :
    RateLimiter.Reachable ⟨10, 3⟩ ⟨[], 1, 1000, 1000, [1000]⟩ ∧
    ((⟨[], 1, 1000, 1000, [1000]⟩ : RateLimiter.State).pending ≤ 3) ∧
    RateLimiter.gapsOK (1000 / 10) [1000] = true := by
  have h0 : RateLimiter.Reachable ⟨10, 3⟩ ⟨[], 0, 0, 0, []⟩ :=
    RateLimiter.Reachable.init 0 le_rfl
  have h1 : RateLimiter.Reachable ⟨10, 3⟩ ⟨[7], 0, 0, 0, []⟩ :=
    RateLimiter.Reachable.step h0 (RateLimiter.Step.enqueue _ 7)
  have h2 : RateLimiter.Reachable ⟨10, 3⟩ ⟨[7], 0, 0, 1000, []⟩ :=
    RateLimiter.Reachable.step h1 (RateLimiter.Step.tick _ 1000 (by norm_num))
  have h3 : RateLimiter.Reachable ⟨10, 3⟩ ⟨[], 1, 1000, 1000, [1000]⟩ :=
    RateLimiter.Reachable.step h2
      (RateLimiter.Step.admitTask _ 7 [] rfl
        (by norm_num [RateLimiter.Config.maxConcurrent, jsOrN])
        (by norm_num [RateLimiter.Config.minInterval]))
  exact ⟨h3, (C1_rate_limiter_invariant 10 3 _ h3).2.1 (by norm_num),
    (C1_rate_limiter_invariant 10 3 _ h3).2.2⟩

/-- Setting index `i` of a phase list changes `countP` by removing the
old phase's contribution and adding the new one's. -/
theorem Auth.countP_set (p : Auth.Phase → Bool) :
    ∀ (l : List Auth.Phase) (i : Nat) (a b : Auth.Phase),
      l.get? i = some a →
      (l.set i b).countP p + (if p a then 1 else 0)
        = l.countP p + (if p b then 1 else 0) := by
  intro l
  induction l with
  | nil => intro i a b h; simp at h
  | cons hd tl ih =>
    intro i a b h
    cases i with
    | zero =>
      simp only [List.get?] at h
      injection h with h
      subst h
      cases hph : p hd <;> cases hpb : p b <;>
        simp +arith [List.set, List.countP_cons, hph, hpb]
    | succ n =>
      simp only [List.get?] at h
      have hrec := ih n a b h
      cases hpa : p a <;> cases hpb : p b <;> rw [hpa, hpb] at hrec <;>
        simp at hrec <;> cases hph : p hd <;>
          simp +arith [List.set, List.countP_cons, hpa, hpb, hph, hrec]

/-- Overwriting a non-counted phase with a non-counted phase keeps
`countP`. -/
theorem Auth.countP_set_keep (p : Auth.Phase → Bool) (l : List Auth.Phase) (i : Nat)
    (a b : Auth.Phase) (h : l.get? i = some a) (hpa : p a = false) (hpb : p b = false) :
    (l.set i b).countP p = l.countP p := by
  have hc := Auth.countP_set p l i a b h
  rw [hpa, hpb] at hc
  simpa using hc

/-- Overwriting a non-counted phase with a counted phase adds one. -/
theorem Auth.countP_set_add (p : Auth.Phase → Bool) (l : List Auth.Phase) (i : Nat)
    (a b : Auth.Phase) (h : l.get? i = some a) (hpa : p a = false) (hpb : p b = true) :
    (l.set i b).countP p = l.countP p + 1 := by
  have hc := Auth.countP_set p l i a b h
  rw [hpa, hpb] at hc
  simpa using hc

/-- Overwriting a counted phase with a non-counted phase removes one. -/
theorem Auth.countP_set_sub (p : Auth.Phase → Bool) (l : List Auth.Phase) (i : Nat)
    (a b : Auth.Phase) (h : l.get? i = some a) (hpa : p a = true) (hpb : p b = false) :
    (l.set i b).countP p + 1 = l.countP p := by
  have hc := Auth.countP_set p l i a b h
  rw [hpa, hpb] at hc
  simpa using hc

/-- A list of `n` copies of `a` has `countP p` equal to `n` or `0`
according to `p a`. -/
theorem Auth.countP_replicate (p : Auth.Phase → Bool) (a : Auth.Phase) :
    ∀ n, (List.replicate n a).countP p = if p a then n else 0 := by
  intro n
  induction n with
  | zero => simp
  | succ n ih => cases hpa : p a <;> simp [List.replicate, List.countP_cons, ih, hpa]

/-- Inductive invariant of the refresh state machine: the number of
network refresh requests in flight is 1 exactly when the `isRefreshing`
single-flight flag is set, and 0 otherwise. -/
theorem Auth.reachable_inFlight :
    ∀ s, Auth.AReachable s → Auth.inFlight s = cond s.isRefreshing 1 0 := by
  intro s hr
  induction hr with
  | init n hs =>
    show (List.replicate n Auth.Phase.start).countP _ = 0
    rw [Auth.countP_replicate]
    rfl
  | step hr hstep ih =>
    cases hstep with
    | noToken i h hs =>
      rename_i s
      have hc := Auth.countP_set_keep (fun p => p == Auth.Phase.refreshing) s.threads i
        .start .doneFail h rfl rfl
      show (s.threads.set i Auth.Phase.doneFail).countP _ = cond s.isRefreshing 1 0
      rw [hc]
      exact ih
    | enterWait i h hs hrf =>
      rename_i s
      have hc := Auth.countP_set_keep (fun p => p == Auth.Phase.refreshing) s.threads i
        .start .waiting h rfl rfl
      show (s.threads.set i Auth.Phase.waiting).countP _ = cond s.isRefreshing 1 0
      rw [hc]
      exact ih
    | beginRefresh i h hs hrf =>
      rename_i s
      have hc := Auth.countP_set_add (fun p => p == Auth.Phase.refreshing) s.threads i
        .start .refreshing h rfl rfl
      have ih0 : s.threads.countP (fun p => p == Auth.Phase.refreshing) = 0 := by
        rw [Auth.inFlight] at ih
        rw [hrf] at ih
        exact ih
      show (s.threads.set i Auth.Phase.refreshing).countP _ = 1
      rw [hc, ih0]
    | waitReturn i h =>
      rename_i s
      cases hhs : s.hasSession with
      | false =>
        have hc := Auth.countP_set_keep (fun p => p == Auth.Phase.refreshing) s.threads i
          .waiting .doneFail h rfl rfl
        show (s.threads.set i Auth.Phase.doneFail).countP _ = cond s.isRefreshing 1 0
        rw [hc]
        exact ih
      | true =>
        have hc := Auth.countP_set_keep (fun p => p == Auth.Phase.refreshing) s.threads i
          .waiting .doneOk h rfl rfl
        show (s.threads.set i Auth.Phase.doneOk).countP _ = cond s.isRefreshing 1 0
        rw [hc]
        exact ih
    | refreshOk i h =>
      rename_i s
      have hc := Auth.countP_set_sub (fun p => p == Auth.Phase.refreshing) s.threads i
        .refreshing .doneOk h rfl rfl
      show (s.threads.set i Auth.Phase.doneOk).countP _ = 0
      cases hflag : s.isRefreshing with
      | true =>
        have ih1 : s.threads.countP (fun p => p == Auth.Phase.refreshing) = 1 := by
          rw [Auth.inFlight] at ih
          rw [hflag] at ih
          exact ih
        omega
      | false =>
        have ih0 : s.threads.countP (fun p => p == Auth.Phase.refreshing) = 0 := by
          rw [Auth.inFlight] at ih
          rw [hflag] at ih
          exact ih
        omega
    | refreshFail i h =>
      rename_i s
      have hc := Auth.countP_set_sub (fun p => p == Auth.Phase.refreshing) s.threads i
        .refreshing .doneFail h rfl rfl
      show (s.threads.set i Auth.Phase.doneFail).countP _ = 0
      cases hflag : s.isRefreshing with
      | true =>
        have ih1 : s.threads.countP (fun p => p == Auth.Phase.refreshing) = 1 := by
          rw [Auth.inFlight] at ih
          rw [hflag] at ih
          exact ih
        omega
      | false =>
        have ih0 : s.threads.countP (fun p => p == Auth.Phase.refreshing) = 0 := by
          rw [Auth.inFlight] at ih
          rw [hflag] at ih
          exact ih
        omega


/--
C5: single-flight refresh — at every reachable state at most one network
refresh request is in flight; a network request is issued only by a step
taken while the `isRefreshing` flag is clear (so a `refreshToken()` call
made while a refresh is in flight issues no network request); and a
waiting concurrent caller wakes to return the current session when one
exists, failing otherwise.
-/
theorem C5_single_flight :
    (∀ s, Auth.AReachable s → Auth.inFlight s ≤ 1) ∧
    (∀ s s', Auth.AStep s s' →
      s'.netCalls = s.netCalls ∨
        (s'.netCalls = s.netCalls + 1 ∧ s.isRefreshing = false)) ∧
    (∀ (s : Auth.AState) (i : Nat), s.threads.get? i = some .waiting →
      Auth.AStep s { s with
        threads := s.threads.set i (if s.hasSession then .doneOk else .doneFail) }) := by
  refine ⟨fun s hr => ?_, fun s s' hstep => ?_,
    fun s i h => Auth.AStep.waitReturn s i h⟩
  · rw [Auth.reachable_inFlight s hr]
    cases s.isRefreshing <;> simp
  · cases hstep with
    | noToken i h hs => exact Or.inl rfl
    | enterWait i h hs hrf => exact Or.inl rfl
    | beginRefresh i h hs hrf => exact Or.inr ⟨rfl, hrf⟩
    | waitReturn i h => exact Or.inl rfl
    | refreshOk i h => exact Or.inl rfl
    | refreshFail i h => exact Or.inl rfl

/-- C5 witness: two concurrent `refreshToken()` callers — the first
begins the (single) network refresh, the second arrives while it is in
flight, waits without issuing a request, and wakes to the session. -/
theorem C5_single_flight_witness :
    Auth.inFlight ⟨true, true, 1, [.refreshing, .waiting]⟩ ≤ 1 ∧
    (⟨true, true, 1, [.refreshing, .waiting]⟩ : Auth.AState).netCalls
      = (⟨true, true, 1, [.refreshing, .start]⟩ : Auth.AState).netCalls ∧
    Auth.AStep ⟨true, true, 1, [.refreshing, .waiting]⟩
      ⟨true, true, 1, [.refreshing, .doneOk]⟩ := by
  have h0 : Auth.AReachable ⟨false, true, 0, [.start, .start]⟩ :=
    Auth.AReachable.init 2 true
  have h1 : Auth.AReachable ⟨true, true, 1, [.refreshing, .start]⟩ :=
    Auth.AReachable.step h0 (Auth.AStep.beginRefresh _ 0 rfl rfl rfl)
  have h2 : Auth.AReachable ⟨true, true, 1, [.refreshing, .waiting]⟩ :=
    Auth.AReachable.step h1 (Auth.AStep.enterWait _ 1 rfl rfl rfl)
  refine ⟨C5_single_flight.1 _ h2, ?_, ?_⟩
  · have h := C5_single_flight.2.1 ⟨true, true, 1, [.refreshing, .start]⟩
      ⟨true, true, 1, [.refreshing, .waiting]⟩ (Auth.AStep.enterWait _ 1 rfl rfl rfl)
    rcases h with h | h
    · exact h
    · exact absurd h.2 (by decide)
  · exact C5_single_flight.2.2 ⟨true, true, 1, [.refreshing, .waiting]⟩ 1 rfl
